import Mathlib

/-!
Shallow embedding of the reusable helper module `src/utils/utils.js` of the
theta-chain API test suite: the request executor `makeRequest`, the schema
validators `validateSchema` / `validateArraySchema`, and the performance
timer `measurePerformance`, together with proofs of the specified
properties.
-/

set_option autoImplicit false

namespace ThetaUtils

/-- JSON values, as carried in request/response bodies. -/
inductive JSON where
  | null
  | bool (b : Bool)
  | num (n : Int)
  | str (s : String)
  | arr (items : List JSON)
  | obj (fields : List (String × JSON))

/-- A plain JS object, viewed as its own-property key/value list.
`validateSchema` only ever consults key presence (`hasOwnProperty`). -/
abbrev Record := List (String × JSON)

/-- JS `response.hasOwnProperty(field)`: some own key of the object equals
`field`. -/
def hasOwnProperty (response : Record) (field : String) : Bool :=
  response.any (fun kv => kv.1 == field)

/-- Schema objects from the config: a list of required field names (in
declaration order) and a list of optional ones (never consulted by the
code). -/
structure Schema where
  required : List String
  optional : List String := []

/-- The result shape produced by both validators. -/
structure ValidationResult where
  isValid : Bool
  errors : List String
deriving Repr, DecidableEq

/-- The error message pushed for a missing field in `validateSchema`. -/
def missingFieldMsg (field : String) : String :=
  s!"Missing required field: {field}"

/-- `validateSchema(response, schema)` from `src/utils/utils.js` lines
58-72: for each field of `schema.required` in order, if the response lacks
the field push `"Missing required field: <field>"`; `isValid` is whether
the accumulated error list is empty.  The `forEach`/`push` loop is
rendered as a left fold that appends to the accumulator. -/
def validateSchema (response : Record) (schema : Schema) : ValidationResult :=
  let errors := schema.required.foldl
    (fun errors field =>
      if !(hasOwnProperty response field) then
        errors ++ [missingFieldMsg field]
      else
        errors)
    []
  { isValid := errors.length == 0, errors := errors }

/-- The argument `validateArraySchema` receives: either a JS array of
items, or any non-array value (the non-array branch of the source never
inspects the value beyond `Array.isArray`). -/
inductive ArrayInput where
  | array (items : List Record)
  | nonArray

/-- `validateArraySchema(response, schema)` from `src/utils/utils.js`
lines 80-100: non-arrays short-circuit with the single error
`"Response is not an array"`; otherwise each item is validated with
`validateSchema` and its errors are pushed prefixed with
`"Item <index>: "`. -/
def validateArraySchema (response : ArrayInput) (schema : Schema) : ValidationResult :=
  match response with
  | .nonArray =>
    { isValid := false, errors := ["Response is not an array"] }
  | .array items =>
    let errors := items.enum.foldl
      (fun errors p =>
        errors ++ (validateSchema p.2 schema).errors.map
          (fun e => s!"Item {p.1}: {e}"))
      []
    { isValid := errors.length == 0, errors := errors }

/-- The uniform response record the executor always returns. -/
structure NormalizedResponse where
  status : Nat
  data : JSON
  headers : List (String × String)

/-- Caller-supplied request options; a `none` field models absence of
that key on the JS options object. -/
structure RequestOptions where
  timeout : Option Nat := none
  method : Option String := none
  data : Option JSON := none
  headers : Option (List (String × String)) := none

/-- The configuration object handed to the transport (axios). -/
structure AxiosConfig where
  url : String
  timeout : Nat
  method : Option String
  data : Option JSON
  headers : List (String × String)

/-- The headers of `defaultOptions` in `makeRequest`
(`src/utils/utils.js` lines 12-17). -/
def defaultHeaders : List (String × String) :=
  [("Content-Type", "application/json")]

/-- The object `{url, ...defaultOptions, ...options}` built on
`src/utils/utils.js` lines 21-25.  JS object spread is SHALLOW: each
top-level key present on `options` replaces the default for that key
wholesale; in particular a caller-supplied `headers` object replaces the
entire default headers object, and a caller-supplied `timeout` replaces
the default timeout. -/
def buildAxiosConfig (baseURL : String) (requestTimeout : Nat) (endpoint : String)
    (options : RequestOptions) : AxiosConfig :=
  { url := baseURL ++ endpoint
  , timeout := options.timeout.getD requestTimeout
  , method := options.method
  , data := options.data
  , headers := options.headers.getD defaultHeaders }

/-- Outcome of awaiting `axios(config)`: resolution with a response
(axios resolves on 2xx under its default `validateStatus`), rejection
carrying `error.response` (a non-2xx status was received), rejection with
`error.request` but no response (connection refused, DNS failure, timeout
expiry), or rejection before dispatch (`error.message` only). -/
inductive TransportOutcome where
  | success (status : Nat) (data : JSON) (headers : List (String × String))
  | errorWithResponse (status : Nat) (data : JSON) (headers : List (String × String))
  | errorNoResponse
  | setupFailure (message : String)

/-- The `try`/`catch` of `makeRequest` (`src/utils/utils.js` lines
19-49): a resolved response is returned as-is; `error.response` is
returned as-is; no response yields the status-0 sentinel with
`{error: 'No response received'}`; a setup error yields status 0 with
`{error: error.message}`. -/
def normalizeOutcome : TransportOutcome → NormalizedResponse
  | .success s d h => { status := s, data := d, headers := h }
  | .errorWithResponse s d h => { status := s, data := d, headers := h }
  | .errorNoResponse =>
      { status := 0
      , data := .obj [("error", .str "No response received")]
      , headers := [] }
  | .setupFailure msg =>
      { status := 0
      , data := .obj [("error", .str msg)]
      , headers := [] }

/-- `makeRequest(endpoint, options)` of `src/utils/utils.js` lines 10-50,
with the ambient config (`config.baseURL`, `config.timeouts.request`) and
the HTTP transport passed explicitly.  The transport maps the built axios
config to however the network reacted; `makeRequest` normalizes that
outcome and never raises. -/
def makeRequest (baseURL : String) (requestTimeout : Nat) (endpoint : String)
    (options : RequestOptions) (transport : AxiosConfig → TransportOutcome) :
    NormalizedResponse :=
  normalizeOutcome (transport (buildAxiosConfig baseURL requestTimeout endpoint options))

/-- The status of the HTTP response the transport received, if any. -/
def receivedStatus : TransportOutcome → Option Nat
  | .success s _ _ => some s
  | .errorWithResponse s _ _ => some s
  | .errorNoResponse => none
  | .setupFailure _ => none

/-- Whether a JSON value is an object carrying an `"error"` own key. -/
def dataHasErrorKey : JSON → Bool
  | .obj fields => fields.any (fun kv => kv.1 == "error")
  | _ => false

/-- Modelled from the spec's words for claim C2 ("headers: merged over
defaults with caller taking precedence", "the default header survives
unless individually overridden"): a per-entry merge that keeps every
default entry whose key the caller does not override.  To be compared
with the source's object-level spread in `buildAxiosConfig`. -/
def mergeHeadersSpec (defaults caller : List (String × String)) :
    List (String × String) :=
  defaults.filter (fun kv => caller.all (fun kv2 => !(kv2.1 == kv.1))) ++ caller

/-- The result shape of `measurePerformance`. -/
structure PerformanceResult where
  duration : Int
  isWithinLimit : Bool
  response : NormalizedResponse

/-- `measurePerformance(requestFn, maxTime = 1000)` of
`src/utils/utils.js` lines 125-136.  `startTime` and `endTime` are the
two `Date.now()` samples taken around awaiting `requestFn()`, and
`response` is whatever `requestFn()` resolved to. -/
def measurePerformance (startTime endTime : Int) (response : NormalizedResponse)
    (maxTime : Int := 1000) : PerformanceResult :=
  let duration := endTime - startTime
  { duration := duration
  , isWithinLimit := decide (duration ≤ maxTime)
  , response := response }

/-! ### Auxiliary lemmas about the validators -/

/-- A push-loop that conditionally appends one element per input is the
append of the mapped filter. -/
theorem foldl_push_filter {α β : Type} (p : α → Bool) (m : α → β)
    (req : List α) (acc : List β) :
    req.foldl
      (fun errors field => if p field then errors ++ [m field] else errors)
      acc
    = acc ++ (req.filter p).map m := by
  induction req generalizing acc with
  | nil => simp
  | cons f fs ih =>
    simp only [List.foldl_cons, List.filter_cons]
    cases h : p f with
    | true => simp [h, ih]
    | false => simp [h, ih]

/-- Closed form of the error list of `validateSchema`. -/
theorem validateSchema_errors (R : Record) (S : Schema) :
    (validateSchema R S).errors
      = (S.required.filter (fun f => !(hasOwnProperty R f))).map missingFieldMsg := by
  show S.required.foldl _ [] = _
  rw [foldl_push_filter (fun f => !(hasOwnProperty R f)) missingFieldMsg]
  simp

/-- `isValid` is the emptiness check on the error list, for `validateSchema`. -/
theorem validateSchema_isValid (R : Record) (S : Schema) :
    (validateSchema R S).isValid = ((validateSchema R S).errors.length == 0) := rfl

/-- `validateSchema` in closed form. -/
theorem validateSchema_eq (R : Record) (S : Schema) :
    validateSchema R S
      = ⟨((S.required.filter (fun f => !(hasOwnProperty R f))).map missingFieldMsg).length == 0,
         (S.required.filter (fun f => !(hasOwnProperty R f))).map missingFieldMsg⟩ := by
  have he := validateSchema_errors R S
  have hv := validateSchema_isValid R S
  cases hr : validateSchema R S with
  | mk isValid errors =>
    rw [hr] at he hv
    simp only at he hv
    rw [he] at hv
    rw [he, hv]

/-- A loop that appends a block of output per input element produces the
concatenation of the blocks. -/
theorem foldl_append_flatMap {α β : Type} (g : α → List β) (xs : List α) (acc : List β) :
    xs.foldl (fun errors x => errors ++ g x) acc = acc ++ xs.flatMap g := by
  induction xs generalizing acc with
  | nil => simp
  | cons x rest ih => simp [ih]

/-- Closed form of the error list of `validateArraySchema` on arrays. -/
theorem validateArraySchema_errors (items : List Record) (S : Schema) :
    (validateArraySchema (.array items) S).errors
      = items.enum.flatMap
          (fun p => (validateSchema p.2 S).errors.map (fun e => s!"Item {p.1}: {e}")) := by
  show items.enum.foldl _ [] = _
  have h := foldl_append_flatMap
    (fun (p : Nat × Record) => (validateSchema p.2 S).errors.map (fun e => s!"Item {p.1}: {e}"))
    items.enum []
  rw [List.nil_append] at h
  exact h

/-! ### Claims about the validators -/

/-- C1: `validateSchema(R,S).isValid` holds iff every key of `S.required`
is an own property of `R` (so extra keys are irrelevant, and any record
with the same key-membership behaviour validates identically), and
`errors` is exactly the in-order list of `"Missing required field: <key>"`
for the missing keys of `S.required` — all of them, not only the first. -/
theorem claim_C1_validateSchema (R : Record) (S : Schema) :
    ((validateSchema R S).isValid = true ↔ ∀ k ∈ S.required, hasOwnProperty R k = true)
    ∧ (validateSchema R S).errors
        = (S.required.filter (fun k => !(hasOwnProperty R k))).map missingFieldMsg
    ∧ ∀ R' : Record, (∀ k ∈ S.required, hasOwnProperty R' k = hasOwnProperty R k) →
        validateSchema R' S = validateSchema R S := by
  refine ⟨?_, validateSchema_errors R S, ?_⟩
  · rw [validateSchema_isValid, validateSchema_errors]
    simp [List.filter_eq_nil_iff]
  · intro R' h
    rw [validateSchema_eq, validateSchema_eq]
    have : S.required.filter (fun f => !(hasOwnProperty R' f))
        = S.required.filter (fun f => !(hasOwnProperty R f)) := by
      apply List.filter_congr
      intro a ha
      rw [h a ha]
    rw [this]

/-- Witness for C1: a reordered record with an extra key validates
exactly like the record of the spec's concrete scenario 1
(`validate({id:"x",name:"y"}, {required:["id","name","symbol"]})`). -/
theorem claim_C1_validateSchema_witness :
    validateSchema [("name", .str "y"), ("id", .str "x"), ("extra", .null)]
        { required := ["id", "name", "symbol"] }
      = validateSchema [("id", .str "x"), ("name", .str "y")]
        { required := ["id", "name", "symbol"] } :=
  (claim_C1_validateSchema [("id", .str "x"), ("name", .str "y")]
      { required := ["id", "name", "symbol"] }).2.2
    [("name", .str "y"), ("id", .str "x"), ("extra", .null)]
    (by decide)

/-- C5: on an array input, `validateArraySchema`'s error list is the
index-ordered concatenation of each element's independent
`validateSchema` errors, each prefixed with `"Item <i>: "`. -/
theorem claim_C5_validateArray_concat (items : List Record) (S : Schema) :
    (validateArraySchema (.array items) S).errors
      = items.enum.flatMap
          (fun p => (validateSchema p.2 S).errors.map (fun e => s!"Item {p.1}: {e}")) :=
  validateArraySchema_errors items S

/-- C6: on any non-array input, `validateArraySchema` returns exactly one
error, `"Response is not an array"`, with `isValid = false`, independently
of the schema. -/
theorem claim_C6_non_array (S S' : Schema) :
    validateArraySchema .nonArray S = ⟨false, ["Response is not an array"]⟩
    ∧ (validateArraySchema .nonArray S).errors.length = 1
    ∧ validateArraySchema .nonArray S = validateArraySchema .nonArray S' :=
  ⟨rfl, rfl, rfl⟩

/-- C8: every result of `validateSchema` and every result of
`validateArraySchema` (array input or not) satisfies
`isValid = (errors.length = 0)`. -/
theorem claim_C8_isValid_invariant (R : Record) (v : ArrayInput) (S S' : Schema) :
    ((validateSchema R S).isValid = true ↔ (validateSchema R S).errors.length = 0)
    ∧ ((validateArraySchema v S').isValid = true
        ↔ (validateArraySchema v S').errors.length = 0) := by
  constructor
  · rw [validateSchema_isValid]
    simp
  · cases v with
    | nonArray => simp [validateArraySchema]
    | array items =>
      show ((items.enum.foldl _ []).length == 0) = true ↔ _
      simp [validateArraySchema]

/-- C10: the empty array is valid under every schema. -/
theorem claim_C10_empty_array (S : Schema) :
    validateArraySchema (.array []) S = ⟨true, []⟩ := rfl

/-! ### Claims about the request executor -/

/-- C2 counterexample: when the caller supplies
`headers: {"X-Custom": "1"}`, the config actually handed to the transport
carries exactly the caller's headers — the default
`Content-Type: application/json` entry is dropped — whereas the claimed
per-entry merge (`mergeHeadersSpec`) keeps it. -/
theorem claim_C2_counterexample :
    (buildAxiosConfig "http://localhost" 5000 "/api/tokens"
        { headers := some [("X-Custom", "1")] }).headers
      = [("X-Custom", "1")]
    ∧ (buildAxiosConfig "http://localhost" 5000 "/api/tokens"
        { headers := some [("X-Custom", "1")] }).headers
      ≠ mergeHeadersSpec defaultHeaders [("X-Custom", "1")] :=
  ⟨rfl, by decide⟩

/-- C2 (amended): the request carries `Content-Type: application/json`
exactly when the caller supplies no `headers` option (a caller-supplied
headers object replaces the default headers wholesale, entries and all),
while the default timeout — a top-level key of the shallow spread — does
survive unless itself overridden. -/
theorem claim_C2_amended_headers (baseURL : String) (requestTimeout : Nat)
    (endpoint : String) (options : RequestOptions) :
    (buildAxiosConfig baseURL requestTimeout endpoint options).headers
      = options.headers.getD [("Content-Type", "application/json")]
    ∧ (buildAxiosConfig baseURL requestTimeout endpoint options).timeout
      = options.timeout.getD requestTimeout :=
  ⟨rfl, rfl⟩

/-- C3: `makeRequest` is a total function of the transport outcome (all
failure modes are normalized, never raised), and whenever any HTTP status
is received — the resolved 2xx path or the rejected `error.response` path
for 4xx/5xx — the returned record is exactly the received
`{status, data, headers}`. -/
theorem claim_C3_any_status_returned (baseURL : String) (requestTimeout : Nat)
    (endpoint : String) (options : RequestOptions)
    (transport : AxiosConfig → TransportOutcome) :
    (makeRequest baseURL requestTimeout endpoint options transport
      = normalizeOutcome
          (transport (buildAxiosConfig baseURL requestTimeout endpoint options)))
    ∧ ∀ s d h,
        (transport (buildAxiosConfig baseURL requestTimeout endpoint options)
            = .success s d h
          ∨ transport (buildAxiosConfig baseURL requestTimeout endpoint options)
            = .errorWithResponse s d h) →
        makeRequest baseURL requestTimeout endpoint options transport
          = { status := s, data := d, headers := h } := by
  refine ⟨rfl, ?_⟩
  intro s d h hcase
  cases hcase with
  | inl hc => simp [makeRequest, hc, normalizeOutcome]
  | inr hc => simp [makeRequest, hc, normalizeOutcome]

/-- Witness for C3: a transport that answers 404 on the error path still
yields the server's record. -/
theorem claim_C3_witness :
    makeRequest "http://localhost" 5000 "/api/token-pairs/zzz" {}
        (fun _ => .errorWithResponse 404 (.obj [("error", .str "Not Found")]) [])
      = { status := 404, data := .obj [("error", .str "Not Found")], headers := [] } :=
  (claim_C3_any_status_returned "http://localhost" 5000 "/api/token-pairs/zzz" {}
      (fun _ => .errorWithResponse 404 (.obj [("error", .str "Not Found")]) [])).2
    404 (.obj [("error", .str "Not Found")]) [] (Or.inr rfl)

/-- C4: when no response at all is received the executor returns exactly
`{status: 0, data: {error: "No response received"}, headers: {}}`, and
when the failure precedes dispatch it returns
`{status: 0, data: {error: <message>}, headers: {}}`. -/
theorem claim_C4_no_response (baseURL : String) (requestTimeout : Nat)
    (endpoint : String) (options : RequestOptions)
    (transport : AxiosConfig → TransportOutcome) :
    (transport (buildAxiosConfig baseURL requestTimeout endpoint options)
        = .errorNoResponse →
      makeRequest baseURL requestTimeout endpoint options transport
        = { status := 0
          , data := .obj [("error", .str "No response received")]
          , headers := [] })
    ∧ ∀ msg,
        transport (buildAxiosConfig baseURL requestTimeout endpoint options)
          = .setupFailure msg →
        makeRequest baseURL requestTimeout endpoint options transport
          = { status := 0
            , data := .obj [("error", .str msg)]
            , headers := [] } := by
  constructor
  · intro hc
    simp [makeRequest, hc, normalizeOutcome]
  · intro msg hc
    simp [makeRequest, hc, normalizeOutcome]

/-- Witness for C4: a timed-out call and a pre-dispatch failure, both at
concrete inputs. -/
theorem claim_C4_witness :
    (makeRequest "http://localhost" 5000 "/api/history" { timeout := some 1 }
        (fun _ => .errorNoResponse)
      = { status := 0
        , data := .obj [("error", .str "No response received")]
        , headers := [] })
    ∧ (makeRequest "http://localhost" 5000 "/api/history" {}
        (fun _ => .setupFailure "Invalid URL")
      = { status := 0
        , data := .obj [("error", .str "Invalid URL")]
        , headers := [] }) :=
  ⟨(claim_C4_no_response "http://localhost" 5000 "/api/history" { timeout := some 1 }
      (fun _ => .errorNoResponse)).1 rfl,
   (claim_C4_no_response "http://localhost" 5000 "/api/history" {}
      (fun _ => .setupFailure "Invalid URL")).2 "Invalid URL" rfl⟩

/-- C9: a received response always keeps the server-assigned status; the
no-response and setup-failure branches — exactly the outcomes with no
received status — produce status 0 with empty headers and a data object
carrying the `"error"` key; hence, as long as every genuinely received
HTTP status is ≥ 100, status 0 characterizes the no-response branches. -/
theorem claim_C9_status_zero_sentinel (outcome : TransportOutcome) :
    (∀ s, receivedStatus outcome = some s → (normalizeOutcome outcome).status = s)
    ∧ (receivedStatus outcome = none →
        (normalizeOutcome outcome).status = 0
        ∧ (normalizeOutcome outcome).headers = []
        ∧ dataHasErrorKey (normalizeOutcome outcome).data = true)
    ∧ ((∀ s, receivedStatus outcome = some s → 100 ≤ s) →
        ((normalizeOutcome outcome).status = 0 ↔ receivedStatus outcome = none)) := by
  cases outcome with
  | success s d h =>
    refine ⟨?_, ?_, ?_⟩
    · intro t ht
      simp [receivedStatus] at ht
      simp [normalizeOutcome, ht]
    · intro hnone
      simp [receivedStatus] at hnone
    · intro h100
      have hs := h100 s (by simp [receivedStatus])
      simp [normalizeOutcome, receivedStatus]
      omega
  | errorWithResponse s d h =>
    refine ⟨?_, ?_, ?_⟩
    · intro t ht
      simp [receivedStatus] at ht
      simp [normalizeOutcome, ht]
    · intro hnone
      simp [receivedStatus] at hnone
    · intro h100
      have hs := h100 s (by simp [receivedStatus])
      simp [normalizeOutcome, receivedStatus]
      omega
  | errorNoResponse =>
    refine ⟨?_, ?_, ?_⟩
    · intro t ht
      simp [receivedStatus] at ht
    · intro _
      exact ⟨rfl, rfl, by decide⟩
    · intro _
      simp [normalizeOutcome, receivedStatus]
  | setupFailure msg =>
    refine ⟨?_, ?_, ?_⟩
    · intro t ht
      simp [receivedStatus] at ht
    · intro _
      refine ⟨rfl, rfl, ?_⟩
      simp [normalizeOutcome, dataHasErrorKey]
    · intro _
      simp [normalizeOutcome, receivedStatus]

/-- Witness for C9 at the no-response outcome. -/
theorem claim_C9_witness :
    (normalizeOutcome .errorNoResponse).status = 0
    ∧ (normalizeOutcome .errorNoResponse).headers = []
    ∧ dataHasErrorKey (normalizeOutcome .errorNoResponse).data = true :=
  (claim_C9_status_zero_sentinel .errorNoResponse).2.1 rfl

/-! ### Claim about the performance timer -/

/-- C7: provided the two clock samples are ordered (the second `Date.now()`
reads no earlier than the first), `measurePerformance` reports a
nonnegative integer duration, `isWithinLimit` holds exactly when the
duration is at most `maxTime`, the operation's resolved response is
passed through unchanged, and the limit defaults to 1000 when
unspecified. -/
theorem claim_C7_measurePerformance (startTime endTime maxTime : Int)
    (response : NormalizedResponse) (hclock : startTime ≤ endTime) :
    0 ≤ (measurePerformance startTime endTime response maxTime).duration
    ∧ ((measurePerformance startTime endTime response maxTime).isWithinLimit = true
        ↔ (measurePerformance startTime endTime response maxTime).duration ≤ maxTime)
    ∧ (measurePerformance startTime endTime response maxTime).response = response
    ∧ measurePerformance startTime endTime response
        = measurePerformance startTime endTime response 1000 := by
  refine ⟨?_, ?_, rfl, rfl⟩
  · simp only [measurePerformance]
    omega
  · simp [measurePerformance]

/-- Witness for C7 at the spec's concrete scenario 3: an operation taking
1500 ms against a 1000 ms limit. -/
theorem claim_C7_witness :
    (0 : Int) ≤ (measurePerformance 0 1500 ⟨200, .null, []⟩ 1000).duration
    ∧ ((measurePerformance 0 1500 ⟨200, .null, []⟩ 1000).isWithinLimit = true
        ↔ (measurePerformance 0 1500 ⟨200, .null, []⟩ 1000).duration ≤ 1000)
    ∧ (measurePerformance 0 1500 ⟨200, .null, []⟩ 1000).response = ⟨200, .null, []⟩
    ∧ measurePerformance 0 1500 ⟨200, .null, []⟩
        = measurePerformance 0 1500 ⟨200, .null, []⟩ 1000 :=
  claim_C7_measurePerformance 0 1500 1000 ⟨200, .null, []⟩ (by decide)

end ThetaUtils
